import Mathlib

/-!
Verification of the DigiDisplay media acquisition subsystem.

Part 1 models the readiness-detection race of `loadVideo`
(src/DigiDisplay/js/main.js, lines 314-403): a Promise whose producers are
four media-element event listeners (`canplay`, `canplaythrough`,
`loadeddata`, `error`), a 15000 ms deadline `setTimeout`, a one-shot
1000 ms cached-content check, and a 2000 ms `setInterval` poll.  A local
`resolved` flag guards every handler, so the promise settles at most once.
The `cleanup` helper clears the deadline timer and removes the four
listeners; it is invoked by the listener handlers, the cached check and the
poll handler, but NOT by the deadline handler, and no handler clears the
poll interval except the poll handler itself (lazily, on the first tick
after resolution).

Part 2 models the download/library manager
(src/DigiDisplay/Debug/projects/DigiDisplay/js/main.js): `handleDownload`
validation order, `downloadVideo` with its pre-flight duplicate check and
network stage, `generateFilename`, `isSupportedFormat`, and the
`clearAllVideos` sequential delete loop.
-/

namespace DigiDisplay

/-- The four media-element events the race listens for. -/
inductive Signal
  | canplay
  | canplaythrough
  | loadeddata
  | error
deriving DecidableEq, Repr

/-- Which producer settled the race promise. -/
inductive Winner
  | sig (s : Signal)
  | cached
  | poll
  | deadline
deriving DecidableEq, Repr

/-- Spec-level classification of a race outcome. -/
inductive Outcome
  | Ready
  | Failed
  | TimedOut
deriving DecidableEq, Repr

/-- Maps the winning producer to the spec's outcome sum type: any success
signal, the cached check or the poll resolve to `Ready`; the `error`
listener rejects (`Failed`); the deadline timer resolves to `TimedOut`. -/
def Winner.outcome : Winner → Outcome
  | .sig .error => .Failed
  | .sig _ => .Ready
  | .cached => .Ready
  | .poll => .Ready
  | .deadline => .TimedOut

/-- `true` exactly when the producer calls `reject` (only the `error`
listener does; the deadline handler calls `resolve`). -/
def Winner.isReject : Winner → Bool
  | .sig .error => true
  | _ => false

/-- State of one `loadVideo` race closure: the `resolved` flag, the settled
producer and settle time (observables of the promise), and which producers
are still armed (`listenersAttached` covers all four `addEventListener`
registrations, removed together by `cleanup`; `deadlineArmed` is the
15 s `setTimeout`; `intervalArmed` is the 2 s `setInterval`). -/
structure RaceState where
  resolved : Bool
  winner : Option Winner
  winTime : Option Nat
  listenersAttached : Bool
  deadlineArmed : Bool
  intervalArmed : Bool
deriving DecidableEq, Repr

/-- State right after `loadVideo` arms the listeners and timers. -/
def initRace : RaceState :=
  { resolved := false, winner := none, winTime := none,
    listenersAttached := true, deadlineArmed := true, intervalArmed := true }

/-- An occurrence that can drive the race: a media-element event dispatch,
the deadline timer firing, the 1000 ms cached-content check (carrying the
player's `readyState` at that instant), or an interval tick (likewise). -/
inductive Ev
  | platform (s : Signal)
  | deadlineFire
  | cachedCheck (readyState : Nat)
  | pollTick (readyState : Nat)
deriving DecidableEq, Repr

/-- The effect of `cleanup()`: `clearTimeout(timeout)` and the four
`removeEventListener` calls.  It does NOT touch the poll interval. -/
def cleanup (st : RaceState) : RaceState :=
  { st with listenersAttached := false, deadlineArmed := false }

/-- One handler execution, faithful to main.js lines 314-403.
A platform event only runs a handler while the listeners are attached; the
handler is a no-op once `resolved` is set, otherwise it sets `resolved`,
records the producer, and calls `cleanup`.  The deadline handler sets
`resolved` and resolves WITHOUT calling `cleanup`.  The cached check
resolves (with `cleanup`) only when `readyState >= 2`.  The interval
handler, when not yet resolved, resolves (with `clearInterval` and
`cleanup`) only when `readyState >= 1`; when already resolved it just
clears the interval. -/
def step (t : Nat) (e : Ev) (st : RaceState) : RaceState :=
  match e with
  | .platform s =>
      if st.listenersAttached then
        if st.resolved then st
        else cleanup { st with resolved := true, winner := some (.sig s), winTime := some t }
      else st
  | .deadlineFire =>
      if st.deadlineArmed then
        if st.resolved then { st with deadlineArmed := false }
        else { st with resolved := true, winner := some .deadline,
                       winTime := some t, deadlineArmed := false }
      else st
  | .cachedCheck rs =>
      if st.resolved then st
      else if 2 ≤ rs then
        cleanup { st with resolved := true, winner := some .cached, winTime := some t }
      else st
  | .pollTick rs =>
      if st.intervalArmed then
        if st.resolved then { st with intervalArmed := false }
        else if 1 ≤ rs then
          cleanup { st with resolved := true, winner := some .poll,
                            winTime := some t, intervalArmed := false }
        else st
      else st

/-- Run the race over a time-stamped event list, in list order. -/
def runRace (evs : List (Nat × Ev)) (st : RaceState) : RaceState :=
  match evs with
  | [] => st
  | (t, e) :: rest => runRace rest (step t e st)

/-- The deadline `setTimeout` duration (ms): 15000 in the source. -/
def deadlineMs : Nat := 15000

/-- The poll `setInterval` period (ms): 2000 in the source. -/
def pollPeriodMs : Nat := 2000

/-- Tick instants of the 2000 ms interval, up to the first tick after the
deadline (by which time the race is necessarily settled, so the tick
clears the interval). -/
def pollTimes : List Nat :=
  [2000, 4000, 6000, 8000, 10000, 12000, 14000, 16000]

/-- The timer-driven events of one `loadVideo` invocation, given the
player's `readyState` as a function of time: the 1000 ms cached check, the
15000 ms deadline, and the interval ticks. -/
def timerEvents (rs : Nat → Nat) : List (Nat × Ev) :=
  (1000, Ev.cachedCheck (rs 1000)) :: (deadlineMs, Ev.deadlineFire) ::
    pollTimes.map (fun t => (t, Ev.pollTick (rs t)))

/-- Insert an event into a list sorted by timestamp. -/
def insertByTime (x : Nat × Ev) : List (Nat × Ev) → List (Nat × Ev)
  | [] => [x]
  | y :: ys => if x.1 ≤ y.1 then x :: y :: ys else y :: insertByTime x ys

/-- Sort a timed event list by timestamp (insertion sort). -/
def sortByTime : List (Nat × Ev) → List (Nat × Ev)
  | [] => []
  | x :: xs => insertByTime x (sortByTime xs)

/-- The full chronological schedule of one race: the platform's signal
dispatches merged with the invocation's own timer events. -/
def schedule (signals : List (Nat × Signal)) (rs : Nat → Nat) : List (Nat × Ev) :=
  sortByTime (signals.map (fun p => (p.1, Ev.platform p.2)) ++ timerEvents rs)

/-- Two `loadVideo` race closures over the one shared video element: the
stale one from the previous assignment and the fresh one from the current
assignment.  Each closure owns its own `resolved` flag and timers. -/
structure SysState where
  oldRace : RaceState
  newRace : RaceState
deriving DecidableEq, Repr

/-- System-level occurrences: a media-element event dispatch (delivered to
whichever of the two closures still has its listeners attached — `step`
checks that per closure), a stale-closure timer firing, or a fresh-closure
timer firing. -/
inductive SysEv
  | platform (s : Signal)
  | oldTimer (e : Ev)
  | newTimer (e : Ev)
deriving DecidableEq, Repr

/-- Dispatch one system occurrence.  A stale handler only reads and writes
the stale closure's own captured state — it has no reference to the fresh
promise — and symmetrically for the fresh one. -/
def sysStep (t : Nat) (e : SysEv) (sys : SysState) : SysState :=
  match e with
  | .platform s =>
      { oldRace := step t (Ev.platform s) sys.oldRace,
        newRace := step t (Ev.platform s) sys.newRace }
  | .oldTimer ev => { sys with oldRace := step t ev sys.oldRace }
  | .newTimer ev => { sys with newRace := step t ev sys.newRace }

/-- Run the two-closure system over a time-stamped occurrence list. -/
def runSys (evs : List (Nat × SysEv)) (sys : SysState) : SysState :=
  match evs with
  | [] => sys
  | (t, e) :: rest => runSys rest (sysStep t e sys)

/-- The occurrences visible to the fresh closure: platform dispatches and
its own timers; stale-closure timers are dropped. -/
def projNew : List (Nat × SysEv) → List (Nat × Ev)
  | [] => []
  | (t, SysEv.platform s) :: rest => (t, Ev.platform s) :: projNew rest
  | (t, SysEv.newTimer ev) :: rest => (t, ev) :: projNew rest
  | (_, SysEv.oldTimer _) :: rest => projNew rest

/-- The system right after a reassignment that follows a deadline-won race:
the stale closure has settled via the deadline (so its listeners were never
removed) and the fresh closure has just armed its producers. -/
def reassignedAfterTimeout : SysState :=
  { oldRace := runRace (schedule [] (fun _ => 0)) initRace,
    newRace := initRace }

/-! Part 2: the download/library manager
(src/DigiDisplay/Debug/projects/DigiDisplay/js/main.js).

JavaScript string primitives are embedded as structural recursions over
the character list of a `String`, so that every model function evaluates
inside the kernel: `jsSplit` is `split(sep)` for a one-character
separator, `jsJoin` is `join(sep)`, `jsToLower` is `toLowerCase`,
`jsTrim` is `trim`, `jsStartsWith`/`jsEndsWith` are
`startsWith`/`endsWith`, and `jsContainsChar` is `includes` for a
one-character needle. -/

/-- `split(sep)` on a character list: groups between separator
occurrences, preserving empty groups, never returning an empty list. -/
def chSplit (sep : Char) : List Char → List (List Char)
  | [] => [[]]
  | c :: rest =>
      match chSplit sep rest with
      | [] => [[c]]
      | g :: gs => if c = sep then [] :: g :: gs else (c :: g) :: gs

/-- JavaScript `s.split(sep)` for a one-character separator. -/
def jsSplit (sep : Char) (s : String) : List String :=
  (chSplit sep s.data).map fun g => ⟨g⟩

/-- `join(sep)` on character lists. -/
def chJoin (sep : Char) : List (List Char) → List Char
  | [] => []
  | [g] => g
  | g :: gs => g ++ sep :: chJoin sep gs

/-- JavaScript `parts.join(sep)` for a one-character separator. -/
def jsJoin (sep : Char) (ss : List String) : String :=
  ⟨chJoin sep (ss.map String.data)⟩

/-- JavaScript `s.toLowerCase()` (ASCII range, which covers the model's
inputs). -/
def jsToLower (s : String) : String := ⟨s.data.map Char.toLower⟩

/-- Character-list test that the first list begins the second. -/
def chStarts : List Char → List Char → Bool
  | [], _ => true
  | _ :: _, [] => false
  | p :: ps, c :: cs => p = c && chStarts ps cs

/-- JavaScript `s.startsWith(pat)`. -/
def jsStartsWith (s pat : String) : Bool := chStarts pat.data s.data

/-- JavaScript `s.endsWith(pat)`. -/
def jsEndsWith (s pat : String) : Bool :=
  chStarts pat.data.reverse s.data.reverse

/-- JavaScript `s.trim()`. -/
def jsTrim (s : String) : String :=
  ⟨((s.data.dropWhile Char.isWhitespace).reverse.dropWhile
      Char.isWhitespace).reverse⟩

/-- JavaScript `s.includes(c)` for a one-character needle. -/
def jsContainsChar (s : String) (c : Char) : Bool := s.data.contains c

/-- The extension allowlist `supportedFormats` from the constructor. -/
def supportedFormats : List String := ["mp4", "avi", "mkv", "webm", "mov"]

/-- A URL scheme as the platform URL parser accepts it: one ASCII letter
followed by letters, digits, `+`, `-` or `.`. -/
def schemeOk (s : String) : Bool :=
  match s.data with
  | [] => false
  | c :: rest =>
      c.isAlpha && rest.all (fun d => d.isAlphanum || d = '+' || d = '-' || d = '.')

/-- The special schemes that require an authority component. -/
def specialSchemes : List String := ["http", "https", "ws", "wss", "ftp"]

/-- Models the platform `new URL(string)` constructor used by `isValidUrl`
(an external collaborator, not repository code): the string must be an
absolute URL — a scheme followed by `:`, and for the special network
schemes a `//` plus a non-empty authority. -/
def isValidUrl (s : String) : Bool :=
  match jsSplit ':' s with
  | [] => false
  | [_] => false
  | scheme :: restParts =>
      let rest := jsJoin ':' restParts
      schemeOk scheme &&
        (if specialSchemes.contains (jsToLower scheme) then
          jsStartsWith rest "//" &&
            decide (((rest.data.drop 2).takeWhile
              (fun c => c ≠ '/' && c ≠ '?' && c ≠ '#')) ≠ [])
        else true)

/-- `isSupportedFormat`: lowercases the last dot-separated segment of the
ENTIRE url (`url.split('.').pop().toLowerCase()`) and looks it up in the
allowlist. -/
def isSupportedFormat (url : String) : Bool :=
  supportedFormats.contains (jsToLower ((jsSplit '.' url).getLastD ""))

/-- `generateFilename`: last `/`-segment of the url, query string stripped;
if it contains no `.`, replace it by `video_<now1>.mp4`; then split at the
last `.` and insert `_<now2>` before the extension.  `Date.now()` is read
twice in the source, hence the two timestamp arguments. -/
def generateFilename (url : String) (now1 now2 : Nat) : String :=
  let urlParts := jsSplit '/' url
  let seg := urlParts.getLastD ""
  let segNoQuery := (jsSplit '?' seg).headD ""
  let filename :=
    if jsContainsChar segNoQuery '.' then segNoQuery
    else "video_" ++ Nat.repr now1 ++ ".mp4"
  let nameParts := jsSplit '.' filename
  let extension := nameParts.getLastD ""
  let name := jsJoin '.' nameParts.dropLast
  name ++ "_" ++ Nat.repr now2 ++ "." ++ extension

/-- Observable manager state: the single-flight `isDownloading` flag, the
storage paths the Storage Gateway can resolve, and effect counters for
network requests, storage writes and filename generations. -/
structure MgrState where
  isDownloading : Bool
  library : List String
  networkCalls : Nat
  storageWrites : Nat
  filenamesGenerated : Nat
deriving DecidableEq, Repr

/-- What the network returns for the XHR GET. -/
inductive NetOutcome
  | status (code : Nat)
  | netError
  | timedOut
deriving DecidableEq, Repr

/-- The distinguishable rejection kinds of a download request. -/
inductive DlError
  | emptyUrl
  | invalidUrl
  | unsupportedFormat
  | busy
  | duplicate
  | http (code : Nat)
  | network
  | downloadTimeout
deriving DecidableEq, Repr

/-- Result of one download request. -/
inductive DlResult
  | rejected (e : DlError)
  | completed
deriving DecidableEq, Repr

/-- Models `downloadVideo`: sets the flag, derives the filename, checks
`fileExists('videos/<filename>')` BEFORE any network activity and throws
the duplicate error if it resolves, otherwise performs the XHR (counted in
`networkCalls`).  `downloadWithProgress` resolves with the XMLHttpRequest
object only on status 200; the subsequent guard reads `response.ok`, a
property an XMLHttpRequest does not have, so `!response.ok` is true and the
HTTP-status throw fires even after a 200 response — storage is never
written on any path.  The `finally` clause clears the flag. -/
def downloadVideo (st : MgrState) (url : String) (now1 now2 : Nat)
    (net : NetOutcome) : MgrState × DlResult :=
  let st1 := { st with isDownloading := true }
  let filename := generateFilename url now1 now2
  let filePath := "videos/" ++ filename
  let st2 := { st1 with filenamesGenerated := st1.filenamesGenerated + 1 }
  if st2.library.contains filePath then
    ({ st2 with isDownloading := false }, DlResult.rejected DlError.duplicate)
  else
    let st3 := { st2 with networkCalls := st2.networkCalls + 1 }
    match net with
    | NetOutcome.status code =>
        ({ st3 with isDownloading := false },
          DlResult.rejected (DlError.http code))
    | NetOutcome.netError =>
        ({ st3 with isDownloading := false }, DlResult.rejected DlError.network)
    | NetOutcome.timedOut =>
        ({ st3 with isDownloading := false },
          DlResult.rejected DlError.downloadTimeout)

/-- Models `handleDownload`: trim the input, then in source order reject an
empty url, a url the URL parser refuses, a url whose whole-string extension
is outside the allowlist, and a request arriving while `isDownloading` is
set; only then call `downloadVideo`. -/
def handleDownload (st : MgrState) (input : String) (now1 now2 : Nat)
    (net : NetOutcome) : MgrState × DlResult :=
  let url := jsTrim input
  if url = "" then (st, DlResult.rejected DlError.emptyUrl)
  else if isValidUrl url = false then (st, DlResult.rejected DlError.invalidUrl)
  else if isSupportedFormat url = false then
    (st, DlResult.rejected DlError.unsupportedFormat)
  else if st.isDownloading then (st, DlResult.rejected DlError.busy)
  else downloadVideo st url now1 now2 net

/-- A library file name is a video entry when it ends in a supported
extension (case-insensitively), as in the `listFiles` filter. -/
def isVideoFile (name : String) : Bool :=
  supportedFormats.any (fun fmt => jsEndsWith (jsToLower name) ("." ++ fmt))

/-- Models the recursive `deleteNext` loop of `clearAllVideos`: one
`deleteFile` attempt per entry in order; `deletedCount` is incremented on
the success and the failure callback alike, so a failure is logged and
skipped, never halting the loop.  Returns the number of entries the
Storage Gateway actually removed and the attempted names in order. -/
def deleteNext (ok : String → Bool) : List String → Nat × List String
  | [] => (0, [])
  | f :: rest =>
      let r := deleteNext ok rest
      (if ok f then r.1 + 1 else r.1, f :: r.2)

/-- Observables of one `clearAllVideos` run: entries actually removed,
delete attempts in order, and the final notification text and kind. -/
structure ClearOutcome where
  removed : Nat
  attempts : List String
  notice : String
  noticeKind : String
deriving DecidableEq, Repr

/-- Models `clearAllVideos` after the confirmation dialog: filter the
listing to video entries; when empty, an info notice; otherwise run the
delete loop and emit the completion notice naming `totalVideos` — the
TOTAL entry count, with no tracking of how many deletes succeeded. -/
def clearAllVideos (files : List String) (ok : String → Bool) : ClearOutcome :=
  let videoFiles := files.filter isVideoFile
  if videoFiles.length = 0 then
    { removed := 0, attempts := [],
      notice := "No videos to delete", noticeKind := "info" }
  else
    let r := deleteNext ok videoFiles
    { removed := r.1, attempts := r.2,
      notice := "Deleted " ++ Nat.repr videoFiles.length ++ " videos",
      noticeKind := "success" }

/-- The spec's notion of a URL's media extension, written from the claim's
words for comparison with the source's `isSupportedFormat`: the extension
of the last path segment after stripping the query string. -/
def mediaExtension (url : String) : String :=
  jsToLower ((jsSplit '.'
    ((jsSplit '?' ((jsSplit '/' url).getLastD "")).headD "")).getLastD "")

/-- The claim's filename derivation, written from its words: take the
URL's last path segment with the query string stripped; if that segment
has no extension, synthesize `video_<timestamp>.mp4`; then append a
timestamp token to the base name before the extension. -/
def specFilenameDerivation (url : String) (now1 now2 : Nat) : String :=
  let seg := (jsSplit '?' ((jsSplit '/' url).getLastD "")).headD ""
  let withExt :=
    if jsContainsChar seg '.' then seg
    else "video_" ++ Nat.repr now1 ++ ".mp4"
  let parts := jsSplit '.' withExt
  jsJoin '.' parts.dropLast ++ "_" ++ Nat.repr now2 ++ "."
    ++ parts.getLastD ""

/-- A manager state with a download in flight. -/
def busyState : MgrState :=
  { isDownloading := true, library := [], networkCalls := 0,
    storageWrites := 0, filenamesGenerated := 0 }

/-- A quiescent manager state with one stored entry. -/
def idleState : MgrState :=
  { isDownloading := false, library := ["videos/a_5.mp4"], networkCalls := 0,
    storageWrites := 0, filenamesGenerated := 0 }

/-- A quiescent manager state already holding `videos/a_5.mp4`, the name
that `http://h/a.mp4` derives at timestamps 5 and 5 (the first timestamp
is only used when the segment lacks an extension). -/
def dupState : MgrState :=
  { isDownloading := false, library := ["videos/a_5.mp4"],
    networkCalls := 0, storageWrites := 0, filenamesGenerated := 0 }

/-- Once the `resolved` flag is set, every handler leaves the settled
producer, the flag and the settle time unchanged (each handler body is
guarded by `if (!resolved)`). -/
theorem step_resolved_frozen (t : Nat) (e : Ev) (st : RaceState)
    (h : st.resolved = true) :
    (step t e st).winner = st.winner ∧ (step t e st).resolved = true ∧
    (step t e st).winTime = st.winTime := by
  cases e <;> simp only [step] <;> split_ifs <;> simp_all [cleanup]

/-- Once the `resolved` flag is set, no later event sequence changes the
settled producer, the flag or the settle time. -/
theorem runRace_resolved_frozen (evs : List (Nat × Ev)) (st : RaceState)
    (h : st.resolved = true) :
    (runRace evs st).winner = st.winner ∧ (runRace evs st).resolved = true ∧
    (runRace evs st).winTime = st.winTime := by
  induction evs generalizing st with
  | nil => exact ⟨rfl, h, rfl⟩
  | cons e rest ih =>
      obtain ⟨t, ev⟩ := e
      obtain ⟨hw, hr, ht⟩ := step_resolved_frozen t ev st h
      obtain ⟨hw2, hr2, ht2⟩ := ih (step t ev st) hr
      exact ⟨hw2.trans hw, hr2, ht2.trans ht⟩

/-- C1: for every assignment in which no platform readiness or error signal
ever fires and the player's numeric readiness level never reaches the
polled threshold, the race settles with the deadline producer: the outcome
is `TimedOut` (a resolve, not a reject), at exactly the 15000 ms deadline,
which lies within [deadline, deadline + poll period]. -/
theorem C1_no_signal_times_out (rs : Nat → Nat) (h : ∀ t, rs t < 1) :
    ((runRace (schedule [] rs) initRace).winner.map Winner.outcome
        = some Outcome.TimedOut) ∧
    ((runRace (schedule [] rs) initRace).winner.map Winner.isReject
        = some false) ∧
    (runRace (schedule [] rs) initRace).winTime = some deadlineMs ∧
    deadlineMs ≤ deadlineMs ∧ deadlineMs ≤ deadlineMs + pollPeriodMs := by
  have h1 : ¬ 2 ≤ rs 1000 := by have := h 1000; omega
  have p1 : ¬ 1 ≤ rs 2000 := by have := h 2000; omega
  have p2 : ¬ 1 ≤ rs 4000 := by have := h 4000; omega
  have p3 : ¬ 1 ≤ rs 6000 := by have := h 6000; omega
  have p4 : ¬ 1 ≤ rs 8000 := by have := h 8000; omega
  have p5 : ¬ 1 ≤ rs 10000 := by have := h 10000; omega
  have p6 : ¬ 1 ≤ rs 12000 := by have := h 12000; omega
  have p7 : ¬ 1 ≤ rs 14000 := by have := h 14000; omega
  have p8 : ¬ 1 ≤ rs 16000 := by have := h 16000; omega
  simp [schedule, timerEvents, sortByTime, insertByTime, pollTimes,
    deadlineMs, pollPeriodMs, runRace, step, initRace, cleanup,
    Winner.outcome, Winner.isReject, h1, p1, p2, p3, p4, p5, p6, p7, p8]

/-- Witness for C1 at the constant readiness function 0. -/
theorem C1_no_signal_times_out_witness :
    ((runRace (schedule [] (fun _ => 0)) initRace).winner.map Winner.outcome
        = some Outcome.TimedOut) ∧
    ((runRace (schedule [] (fun _ => 0)) initRace).winner.map Winner.isReject
        = some false) ∧
    (runRace (schedule [] (fun _ => 0)) initRace).winTime = some deadlineMs ∧
    deadlineMs ≤ deadlineMs ∧ deadlineMs ≤ deadlineMs + pollPeriodMs :=
  C1_no_signal_times_out (fun _ => 0) (fun _ => Nat.zero_lt_one)

/-- C2: the race settles at most once.  From any state whose `resolved`
flag is set, every later producer firing leaves the settled producer and
the settle time unchanged; in particular, when the decode-error listener
fires first on a fresh race, the outcome is `Failed` and remains `Failed`
over any later event sequence, success signals included. -/
theorem C2_at_most_once (st : RaceState) (evs evs2 : List (Nat × Ev))
    (t : Nat) (h : st.resolved = true) :
    ((runRace evs st).winner = st.winner ∧
        (runRace evs st).winTime = st.winTime) ∧
    ((runRace evs2 (step t (Ev.platform Signal.error) initRace)).winner.map
        Winner.outcome = some Outcome.Failed) := by
  refine ⟨⟨(runRace_resolved_frozen evs st h).1,
          (runRace_resolved_frozen evs st h).2.2⟩, ?_⟩
  have hE : step t (Ev.platform Signal.error) initRace
      = { resolved := true, winner := some (Winner.sig Signal.error),
          winTime := some t, listenersAttached := false,
          deadlineArmed := false, intervalArmed := true } := by
    simp [step, initRace, cleanup]
  rw [hE, (runRace_resolved_frozen evs2 _ rfl).1]
  rfl

/-- Witness for C2: a resolved state with a later `canplay` arrival, and an
error-first race followed by a later `canplay` arrival. -/
theorem C2_at_most_once_witness :
    (((runRace [(20, Ev.platform Signal.canplay)]
          { resolved := true, winner := some Winner.deadline,
            winTime := some 15000, listenersAttached := true,
            deadlineArmed := false, intervalArmed := true }).winner
        = some Winner.deadline ∧
      (runRace [(20, Ev.platform Signal.canplay)]
          { resolved := true, winner := some Winner.deadline,
            winTime := some 15000, listenersAttached := true,
            deadlineArmed := false, intervalArmed := true }).winTime
        = some 15000) ∧
     ((runRace [(9, Ev.platform Signal.canplay)]
          (step 3 (Ev.platform Signal.error) initRace)).winner.map
        Winner.outcome = some Outcome.Failed)) :=
  C2_at_most_once
    { resolved := true, winner := some Winner.deadline, winTime := some 15000,
      listenersAttached := true, deadlineArmed := false, intervalArmed := true }
    [(20, Ev.platform Signal.canplay)] [(9, Ev.platform Signal.canplay)] 3 rfl

/-- C6 counterexample: in the run where no signal fires and the readiness
level stays 0, the deadline producer wins, yet the four event listeners are
still attached after resolution — the deadline handler never calls
`cleanup`, so the claim that every win disarms all losing producers fails. -/
theorem C6_counterexample :
    (runRace (schedule [] (fun _ => 0)) initRace).winner
        = some Winner.deadline ∧
    (runRace (schedule [] (fun _ => 0)) initRace).listenersAttached = true := by
  decide

/-- C6 (amended), covering every win-case.  When one of the four
listeners wins, the listeners and the deadline timer are disarmed at
resolution but the poll interval is still armed; likewise when the cached
check wins; when the poll itself wins, the listeners, the deadline timer
and the interval are all disarmed; when the deadline timer wins, the
listeners remain attached and the interval remains armed (only the
`resolved` flag neutralises them).  In every case where the interval
survives resolution it is cleared only at its first tick after
resolution, which changes neither the winner nor the listeners — shown in
general and on the concrete deadline-win run, whose final state still has
the listeners attached with the interval cleared by the post-resolution
tick. -/
theorem C6_amended_disarm (t : Nat) (s : Signal) (rsc rsp : Nat)
    (hc : 2 ≤ rsc) (hp : 1 ≤ rsp) :
    ((step t (Ev.platform s) initRace).listenersAttached = false ∧
     (step t (Ev.platform s) initRace).deadlineArmed = false ∧
     (step t (Ev.platform s) initRace).resolved = true ∧
     (step t (Ev.platform s) initRace).intervalArmed = true) ∧
    ((step t (Ev.cachedCheck rsc) initRace).listenersAttached = false ∧
     (step t (Ev.cachedCheck rsc) initRace).deadlineArmed = false ∧
     (step t (Ev.cachedCheck rsc) initRace).resolved = true ∧
     (step t (Ev.cachedCheck rsc) initRace).winner = some Winner.cached ∧
     (step t (Ev.cachedCheck rsc) initRace).intervalArmed = true) ∧
    ((step t (Ev.pollTick rsp) initRace).listenersAttached = false ∧
     (step t (Ev.pollTick rsp) initRace).deadlineArmed = false ∧
     (step t (Ev.pollTick rsp) initRace).resolved = true ∧
     (step t (Ev.pollTick rsp) initRace).winner = some Winner.poll ∧
     (step t (Ev.pollTick rsp) initRace).intervalArmed = false) ∧
    ((step t Ev.deadlineFire initRace).listenersAttached = true ∧
     (step t Ev.deadlineFire initRace).deadlineArmed = false ∧
     (step t Ev.deadlineFire initRace).resolved = true ∧
     (step t Ev.deadlineFire initRace).intervalArmed = true) ∧
    (∀ (st : RaceState) (t3 rs3 : Nat),
      st.resolved = true → st.intervalArmed = true →
      (step t3 (Ev.pollTick rs3) st).intervalArmed = false ∧
      (step t3 (Ev.pollTick rs3) st).winner = st.winner ∧
      (step t3 (Ev.pollTick rs3) st).listenersAttached
          = st.listenersAttached) ∧
    ((runRace (schedule [] (fun _ => 0)) initRace).listenersAttached = true ∧
     (runRace (schedule [] (fun _ => 0)) initRace).intervalArmed = false) := by
  refine ⟨?_, ?_, ?_, ?_, ?_, by decide⟩
  · simp [step, initRace, cleanup]
  · simp [step, initRace, cleanup, hc]
  · simp [step, initRace, cleanup, hp]
  · simp [step, initRace, cleanup]
  · intro st t3 rs3 h1 h2
    simp [step, h1, h2]

/-- Witness for C6 (amended) at a `canplay` win, a cached-check win with
readiness level 2, a poll win with readiness level 1, a deadline win, and
the concrete deadline-win run. -/
theorem C6_amended_disarm_witness :
    ((step 40 (Ev.platform Signal.canplay) initRace).listenersAttached
        = false ∧
     (step 40 (Ev.platform Signal.canplay) initRace).deadlineArmed = false ∧
     (step 40 (Ev.platform Signal.canplay) initRace).resolved = true ∧
     (step 40 (Ev.platform Signal.canplay) initRace).intervalArmed = true) ∧
    ((step 40 (Ev.cachedCheck 2) initRace).listenersAttached = false ∧
     (step 40 (Ev.cachedCheck 2) initRace).deadlineArmed = false ∧
     (step 40 (Ev.cachedCheck 2) initRace).resolved = true ∧
     (step 40 (Ev.cachedCheck 2) initRace).winner = some Winner.cached ∧
     (step 40 (Ev.cachedCheck 2) initRace).intervalArmed = true) ∧
    ((step 40 (Ev.pollTick 1) initRace).listenersAttached = false ∧
     (step 40 (Ev.pollTick 1) initRace).deadlineArmed = false ∧
     (step 40 (Ev.pollTick 1) initRace).resolved = true ∧
     (step 40 (Ev.pollTick 1) initRace).winner = some Winner.poll ∧
     (step 40 (Ev.pollTick 1) initRace).intervalArmed = false) ∧
    ((step 40 Ev.deadlineFire initRace).listenersAttached = true ∧
     (step 40 Ev.deadlineFire initRace).deadlineArmed = false ∧
     (step 40 Ev.deadlineFire initRace).resolved = true ∧
     (step 40 Ev.deadlineFire initRace).intervalArmed = true) ∧
    (∀ (st : RaceState) (t3 rs3 : Nat),
      st.resolved = true → st.intervalArmed = true →
      (step t3 (Ev.pollTick rs3) st).intervalArmed = false ∧
      (step t3 (Ev.pollTick rs3) st).winner = st.winner ∧
      (step t3 (Ev.pollTick rs3) st).listenersAttached
          = st.listenersAttached) ∧
    ((runRace (schedule [] (fun _ => 0)) initRace).listenersAttached = true ∧
     (runRace (schedule [] (fun _ => 0)) initRace).intervalArmed = false) :=
  C6_amended_disarm 40 Signal.canplay 2 1 (by decide) (by decide)

/-- C9 counterexample: at the moment the fresh race's producers are armed,
the stale assignment's four listeners are still attached — reassignment
does not cancel the stale listeners before arming new ones (the claim's
cancellation clause fails; the source merely clears `src` and calls
`load()`). -/
theorem C9_counterexample :
    reassignedAfterTimeout.newRace = initRace ∧
    reassignedAfterTimeout.oldRace.listenersAttached = true ∧
    reassignedAfterTimeout.oldRace.resolved = true := by
  decide

/-- C9 (amended): stale producers are not cancelled on reassignment, but
they are harmless.  Because a new load request only starts after the prior
race has settled (the `isLoading` single-flight guard), the stale closure's
`resolved` flag is set; then over any interleaving of occurrences the fresh
race's state is exactly what it would be running alone on its own
occurrences, and the stale race's settled producer never changes — a
late-firing stale listener or timer has no observable effect on the new
race's outcome. -/
theorem C9_amended_stale_isolated (evs : List (Nat × SysEv)) (sys : SysState)
    (h : sys.oldRace.resolved = true) :
    (runSys evs sys).newRace = runRace (projNew evs) sys.newRace ∧
    (runSys evs sys).oldRace.winner = sys.oldRace.winner := by
  induction evs generalizing sys with
  | nil => exact ⟨rfl, rfl⟩
  | cons e rest ih =>
      obtain ⟨t, ev⟩ := e
      cases ev with
      | platform s =>
          obtain ⟨hw, hr, _⟩ :=
            step_resolved_frozen t (Ev.platform s) sys.oldRace h
          obtain ⟨ih1, ih2⟩ := ih (sysStep t (SysEv.platform s) sys) hr
          exact ⟨ih1, ih2.trans hw⟩
      | oldTimer tev =>
          obtain ⟨hw, hr, _⟩ := step_resolved_frozen t tev sys.oldRace h
          obtain ⟨ih1, ih2⟩ := ih (sysStep t (SysEv.oldTimer tev) sys) hr
          exact ⟨ih1, ih2.trans hw⟩
      | newTimer tev =>
          obtain ⟨ih1, ih2⟩ := ih (sysStep t (SysEv.newTimer tev) sys) h
          exact ⟨ih1, ih2⟩

/-- Witness for C9 (amended): after a deadline-won stale race, a stale
listener dispatch interleaved with fresh-race occurrences leaves the fresh
race's state equal to its stand-alone run and the stale outcome fixed. -/
theorem C9_amended_stale_isolated_witness :
    (runSys [(15500, SysEv.platform Signal.canplay),
             (16000, SysEv.oldTimer (Ev.pollTick 0))]
        reassignedAfterTimeout).newRace
      = runRace (projNew [(15500, SysEv.platform Signal.canplay),
                          (16000, SysEv.oldTimer (Ev.pollTick 0))])
          reassignedAfterTimeout.newRace ∧
    (runSys [(15500, SysEv.platform Signal.canplay),
             (16000, SysEv.oldTimer (Ev.pollTick 0))]
        reassignedAfterTimeout).oldRace.winner
      = reassignedAfterTimeout.oldRace.winner :=
  C9_amended_stale_isolated
    [(15500, SysEv.platform Signal.canplay),
     (16000, SysEv.oldTimer (Ev.pollTick 0))]
    reassignedAfterTimeout (by decide)

/-- C3 counterexample: while a download is active, a second request whose
url fails syntax validation is rejected with the VALIDATION error, not the
busy error — the validation checks run before the `isDownloading` check,
so "always yields BusyError" fails. -/
theorem C3_counterexample :
    (handleDownload busyState "not a url" 1 2 NetOutcome.netError).2
        = DlResult.rejected DlError.invalidUrl ∧
    DlResult.rejected DlError.invalidUrl ≠ DlResult.rejected DlError.busy := by
  decide

/-- C3 (amended): while a download is active, no second transfer ever
starts — the manager state (network-call count, filename generations,
storage writes, library) is returned unchanged and every second request is
rejected; a second request that passes the validation checks is rejected
with the busy error, while one failing validation is rejected with its
validation error first. -/
theorem C3_amended_single_flight (st : MgrState) (input : String)
    (n1 n2 : Nat) (net : NetOutcome) (hbusy : st.isDownloading = true) :
    (handleDownload st input n1 n2 net).1 = st ∧
    (∃ e, (handleDownload st input n1 n2 net).2 = DlResult.rejected e) ∧
    (jsTrim input ≠ "" → isValidUrl (jsTrim input) = true →
      isSupportedFormat (jsTrim input) = true →
      (handleDownload st input n1 n2 net).2 = DlResult.rejected DlError.busy) := by
  by_cases hA : jsTrim input = ""
  · have h : handleDownload st input n1 n2 net
        = (st, DlResult.rejected DlError.emptyUrl) := by
      simp only [handleDownload, if_pos hA]
    rw [h]
    exact ⟨rfl, ⟨_, rfl⟩, fun hn _ _ => absurd hA hn⟩
  · by_cases hB : isValidUrl (jsTrim input) = false
    · have h : handleDownload st input n1 n2 net
          = (st, DlResult.rejected DlError.invalidUrl) := by
        simp only [handleDownload, if_neg hA, if_pos hB]
      rw [h]
      exact ⟨rfl, ⟨_, rfl⟩, fun _ hv _ => by rw [hv] at hB; cases hB⟩
    · by_cases hC : isSupportedFormat (jsTrim input) = false
      · have h : handleDownload st input n1 n2 net
            = (st, DlResult.rejected DlError.unsupportedFormat) := by
          simp only [handleDownload, if_neg hA, if_neg hB, if_pos hC]
        rw [h]
        exact ⟨rfl, ⟨_, rfl⟩, fun _ _ hf => by rw [hf] at hC; cases hC⟩
      · have h : handleDownload st input n1 n2 net
            = (st, DlResult.rejected DlError.busy) := by
          simp only [handleDownload, if_neg hA, if_neg hB, if_neg hC,
            if_pos hbusy]
        rw [h]
        exact ⟨rfl, ⟨_, rfl⟩, fun _ _ _ => rfl⟩

/-- Witness for C3 (amended) at the busy state and a well-formed url. -/
theorem C3_amended_single_flight_witness :
    (handleDownload busyState "http://h/a.mp4" 1 2 NetOutcome.netError).1
        = busyState ∧
    (∃ e, (handleDownload busyState "http://h/a.mp4" 1 2
        NetOutcome.netError).2 = DlResult.rejected e) ∧
    (jsTrim "http://h/a.mp4" ≠ "" →
      isValidUrl (jsTrim "http://h/a.mp4") = true →
      isSupportedFormat (jsTrim "http://h/a.mp4") = true →
      (handleDownload busyState "http://h/a.mp4" 1 2 NetOutcome.netError).2
          = DlResult.rejected DlError.busy) :=
  C3_amended_single_flight busyState "http://h/a.mp4" 1 2
    NetOutcome.netError (by decide)

/-- A duplicate rejection can only come from the pre-flight check, which
runs before the network stage, so it always leaves the network-call count
unchanged. -/
theorem duplicate_only_preflight (st : MgrState) (input : String)
    (n1 n2 : Nat) (net : NetOutcome)
    (h : (handleDownload st input n1 n2 net).2
        = DlResult.rejected DlError.duplicate) :
    (handleDownload st input n1 n2 net).1.networkCalls = st.networkCalls := by
  revert h
  simp only [handleDownload, downloadVideo]
  split_ifs <;> intro h <;> first | rfl | (cases net <;> simp_all)

/-- C4: a request whose derived canonical filename already resolves in the
library is rejected with the duplicate error strictly before any transfer:
the network-call count, storage writes and library are unchanged; and in
general a duplicate rejection never occurs mid-transfer — whenever the
result is the duplicate error, the network-call count is unchanged. -/
theorem C4_duplicate_preflight (st : MgrState) (input : String)
    (n1 n2 : Nat) (net : NetOutcome)
    (hne : jsTrim input ≠ "")
    (hval : isValidUrl (jsTrim input) = true)
    (hfmt : isSupportedFormat (jsTrim input) = true)
    (hidle : st.isDownloading = false)
    (hdup : st.library.contains
      ("videos/" ++ generateFilename (jsTrim input) n1 n2) = true) :
    ((handleDownload st input n1 n2 net).2
        = DlResult.rejected DlError.duplicate ∧
      (handleDownload st input n1 n2 net).1.networkCalls = st.networkCalls ∧
      (handleDownload st input n1 n2 net).1.storageWrites = st.storageWrites ∧
      (handleDownload st input n1 n2 net).1.library = st.library) ∧
    (∀ (st2 : MgrState) (input2 : String) (m1 m2 : Nat) (net2 : NetOutcome),
      (handleDownload st2 input2 m1 m2 net2).2
          = DlResult.rejected DlError.duplicate →
      (handleDownload st2 input2 m1 m2 net2).1.networkCalls
          = st2.networkCalls) := by
  refine ⟨?_, fun st2 input2 m1 m2 net2 h =>
    duplicate_only_preflight st2 input2 m1 m2 net2 h⟩
  simp only [handleDownload, downloadVideo]
  rw [if_neg hne, if_neg (by rw [hval]; exact fun h => by cases h),
    if_neg (by rw [hfmt]; exact fun h => by cases h),
    if_neg (by rw [hidle]; exact fun h => by cases h)]
  rw [if_pos hdup]
  exact ⟨rfl, rfl, rfl, rfl⟩

/-- Witness for C4: downloading `http://h/a.mp4` at timestamps 5 and 5
derives `videos/a_5.mp4`; with that entry already stored the request is
rejected as a duplicate with zero network calls. -/
theorem C4_duplicate_preflight_witness :
    ((handleDownload dupState "http://h/a.mp4" 5 5 NetOutcome.netError).2
        = DlResult.rejected DlError.duplicate ∧
      (handleDownload dupState "http://h/a.mp4" 5 5
          NetOutcome.netError).1.networkCalls = dupState.networkCalls ∧
      (handleDownload dupState "http://h/a.mp4" 5 5
          NetOutcome.netError).1.storageWrites = dupState.storageWrites ∧
      (handleDownload dupState "http://h/a.mp4" 5 5
          NetOutcome.netError).1.library = dupState.library) ∧
    (∀ (st2 : MgrState) (input2 : String) (m1 m2 : Nat) (net2 : NetOutcome),
      (handleDownload st2 input2 m1 m2 net2).2
          = DlResult.rejected DlError.duplicate →
      (handleDownload st2 input2 m1 m2 net2).1.networkCalls
          = st2.networkCalls) :=
  C4_duplicate_preflight dupState "http://h/a.mp4" 5 5 NetOutcome.netError
    (by decide) (by decide) (by decide) (by decide) (by decide)

/-- Every run of `downloadVideo` ends in the duplicate rejection or a
transfer-stage rejection (HTTP status, network error, or timeout); it
never produces a validation-class rejection. -/
theorem downloadVideo_result_kinds (st : MgrState) (url : String)
    (n1 n2 : Nat) (net : NetOutcome) :
    (downloadVideo st url n1 n2 net).2 = DlResult.rejected DlError.duplicate ∨
    (∃ c, (downloadVideo st url n1 n2 net).2
        = DlResult.rejected (DlError.http c)) ∨
    (downloadVideo st url n1 n2 net).2 = DlResult.rejected DlError.network ∨
    (downloadVideo st url n1 n2 net).2
        = DlResult.rejected DlError.downloadTimeout := by
  simp only [downloadVideo]
  split_ifs
  · exact Or.inl rfl
  · cases net with
    | status code => exact Or.inr (Or.inl ⟨code, rfl⟩)
    | netError => exact Or.inr (Or.inr (Or.inl rfl))
    | timedOut => exact Or.inr (Or.inr (Or.inr rfl))

/-- C7 counterexample: `https://host/clip.mp4?v=2` passes URL syntax and
its media extension (extension of the last path segment after stripping
the query string) is `mp4`, in the allowlist — yet the request is rejected
with the unsupported-format validation error, because `isSupportedFormat`
examines the last dot-segment of the WHOLE url, here `mp4?v=2`. -/
theorem C7_counterexample :
    isValidUrl "https://host/clip.mp4?v=2" = true ∧
    mediaExtension "https://host/clip.mp4?v=2" = "mp4" ∧
    supportedFormats.contains "mp4" = true ∧
    (handleDownload idleState "https://host/clip.mp4?v=2" 1 2
        NetOutcome.netError).2
      = DlResult.rejected DlError.unsupportedFormat := by
  decide

/-- C7 (amended): with no download in flight, a request is rejected with a
validation-class error (empty, invalid-url, or unsupported-format) iff the
trimmed url is empty, fails URL-syntax validation, or the lowercased last
dot-segment of the ENTIRE url is not in the allowlist — the extension
check reads the whole url, query string included, not the media extension
of the last path segment. -/
theorem C7_amended_validation (st : MgrState) (input : String)
    (n1 n2 : Nat) (net : NetOutcome) (hidle : st.isDownloading = false) :
    ((handleDownload st input n1 n2 net).2
          = DlResult.rejected DlError.emptyUrl ∨
      (handleDownload st input n1 n2 net).2
          = DlResult.rejected DlError.invalidUrl ∨
      (handleDownload st input n1 n2 net).2
          = DlResult.rejected DlError.unsupportedFormat)
    ↔ (jsTrim input = "" ∨ isValidUrl (jsTrim input) = false ∨
        isSupportedFormat (jsTrim input) = false) := by
  by_cases hA : jsTrim input = ""
  · have h : handleDownload st input n1 n2 net
        = (st, DlResult.rejected DlError.emptyUrl) := by
      simp only [handleDownload, if_pos hA]
    rw [h]
    exact ⟨fun _ => Or.inl hA, fun _ => Or.inl rfl⟩
  · by_cases hB : isValidUrl (jsTrim input) = false
    · have h : handleDownload st input n1 n2 net
          = (st, DlResult.rejected DlError.invalidUrl) := by
        simp only [handleDownload, if_neg hA, if_pos hB]
      rw [h]
      exact ⟨fun _ => Or.inr (Or.inl hB), fun _ => Or.inr (Or.inl rfl)⟩
    · by_cases hC : isSupportedFormat (jsTrim input) = false
      · have h : handleDownload st input n1 n2 net
            = (st, DlResult.rejected DlError.unsupportedFormat) := by
          simp only [handleDownload, if_neg hA, if_neg hB, if_pos hC]
        rw [h]
        exact ⟨fun _ => Or.inr (Or.inr hC),
          fun _ => Or.inr (Or.inr rfl)⟩
      · have h : handleDownload st input n1 n2 net
            = downloadVideo st (jsTrim input) n1 n2 net := by
          simp [handleDownload, hA, hB, hC, hidle]
        constructor
        · intro hmem
          rcases downloadVideo_result_kinds st (jsTrim input) n1 n2 net with
            hk | ⟨c, hk⟩ | hk | hk <;>
            rw [h] at hmem <;> rcases hmem with hm | hm | hm <;>
            rw [hk] at hm <;> cases hm
        · intro hmem
          rcases hmem with hm | hm | hm
          · exact absurd hm hA
          · exact absurd hm hB
          · exact absurd hm hC

/-- Witness for C7 (amended) at a quiescent state and the url
`https://host/clip.mp4?v=2`. -/
theorem C7_amended_validation_witness :
    ((handleDownload idleState "https://host/clip.mp4?v=2" 1 2
          NetOutcome.netError).2 = DlResult.rejected DlError.emptyUrl ∨
      (handleDownload idleState "https://host/clip.mp4?v=2" 1 2
          NetOutcome.netError).2 = DlResult.rejected DlError.invalidUrl ∨
      (handleDownload idleState "https://host/clip.mp4?v=2" 1 2
          NetOutcome.netError).2
          = DlResult.rejected DlError.unsupportedFormat)
    ↔ (jsTrim "https://host/clip.mp4?v=2" = "" ∨
        isValidUrl (jsTrim "https://host/clip.mp4?v=2") = false ∨
        isSupportedFormat (jsTrim "https://host/clip.mp4?v=2") = false) :=
  C7_amended_validation idleState "https://host/clip.mp4?v=2" 1 2
    NetOutcome.netError (by decide)

/-- C8 counterexample: for the spec's example url `https://host/clip`
(last path segment `clip`, no extension) the derived name at timestamps 7
and 7 is `video_7_7.mp4` — the segment name `clip` is discarded by the
synthesis step, so the claimed `clip_<timestamp>.mp4` is not produced;
moreover such an extensionless url is rejected by the format allowlist
before any download. -/
theorem C8_counterexample :
    generateFilename "https://host/clip" 7 7 = "video_7_7.mp4" ∧
    "video_7_7.mp4" ≠ "clip_7.mp4" ∧
    isSupportedFormat "https://host/clip" = false := by
  decide

/-- C8 (amended): the destination filename is derived exactly as the
claim's first three steps describe — last path segment with the query
stripped, `video_<timestamp>.mp4` synthesized when that segment has no
extension, then a timestamp token appended before the extension — but for
the extensionless example url the segment name is discarded: the result is
`video_<ts>_<ts>.mp4`, not `clip_<ts>.mp4` (and such a url never reaches
`generateFilename`, being rejected by the format allowlist). -/
theorem C8_amended_derivation (url : String) (n1 n2 : Nat) :
    generateFilename url n1 n2 = specFilenameDerivation url n1 n2 ∧
    generateFilename "https://host/clip" 7 9 = "video_7_9.mp4" :=
  ⟨rfl, by decide⟩

/-- The delete loop attempts every entry once, in order, and the entries
the Storage Gateway removes are exactly those whose delete succeeds. -/
theorem deleteNext_eq (ok : String → Bool) (l : List String) :
    deleteNext ok l = ((l.filter ok).length, l) := by
  induction l with
  | nil => rfl
  | cons f rest ih =>
      simp only [deleteNext, ih, List.filter_cons]
      by_cases h : ok f <;> simp [h]

/-- Entries split into those whose delete succeeds and those whose delete
fails. -/
theorem filter_not_length (p : String → Bool) (l : List String) :
    (l.filter p).length + (l.filter (fun x => !p x)).length = l.length := by
  induction l with
  | nil => rfl
  | cons x xs ih => by_cases h : p x <;> simp [List.filter_cons, h] <;> omega

/-- C5 counterexample: on a two-entry library where deleting `a.mp4`
fails, one entry is removed (N-1 = 1) and the loop completes, but the
completion notice reads `Deleted 2 videos` — the source reports
`totalVideos`, the total attempted count, not the number successfully
removed. -/
theorem C5_counterexample :
    (clearAllVideos ["a.mp4", "b.mp4"] (fun f => f != "a.mp4")).removed
        = 1 ∧
    (clearAllVideos ["a.mp4", "b.mp4"] (fun f => f != "a.mp4")).notice
        = "Deleted 2 videos" ∧
    "Deleted 2 videos" ≠ "Deleted 1 videos" := by
  decide

/-- C5 (amended): on a filtered library of N entries with exactly one
failing delete, the loop is not halted — every entry is attempted in
order, N-1 entries are removed, and the completion notice is emitted as a
success — but the notice reports N, the total attempted count, not the
N-1 successes. -/
theorem C5_amended_best_effort (files : List String) (ok : String → Bool)
    (hone : ((files.filter isVideoFile).filter (fun f => !ok f)).length
        = 1) :
    (clearAllVideos files ok).removed
        = (files.filter isVideoFile).length - 1 ∧
    (clearAllVideos files ok).attempts = files.filter isVideoFile ∧
    (clearAllVideos files ok).notice
        = "Deleted " ++ Nat.repr (files.filter isVideoFile).length
            ++ " videos" ∧
    (clearAllVideos files ok).noticeKind = "success" := by
  have hle := List.length_filter_le (fun f => !ok f) (files.filter isVideoFile)
  have hlen : ¬ (files.filter isVideoFile).length = 0 := by omega
  have hsplit := filter_not_length ok (files.filter isVideoFile)
  simp only [clearAllVideos, if_neg hlen, deleteNext_eq]
  refine ⟨by omega, by simp, by simp, by simp⟩

/-- Witness for C5 (amended) at the two-entry library where deleting
`a.mp4` fails. -/
theorem C5_amended_best_effort_witness :
    (clearAllVideos ["a.mp4", "b.mp4"] (fun f => f != "a.mp4")).removed
        = (["a.mp4", "b.mp4"].filter isVideoFile).length - 1 ∧
    (clearAllVideos ["a.mp4", "b.mp4"] (fun f => f != "a.mp4")).attempts
        = ["a.mp4", "b.mp4"].filter isVideoFile ∧
    (clearAllVideos ["a.mp4", "b.mp4"] (fun f => f != "a.mp4")).notice
        = "Deleted "
            ++ Nat.repr (["a.mp4", "b.mp4"].filter isVideoFile).length
            ++ " videos" ∧
    (clearAllVideos ["a.mp4", "b.mp4"]
        (fun f => f != "a.mp4")).noticeKind = "success" :=
  C5_amended_best_effort ["a.mp4", "b.mp4"] (fun f => f != "a.mp4")
    (by decide)

/-- C10: the sequential deletion always terminates (the loop is a total
recursion over the filtered listing), attempts exactly one delete per
filtered entry in listing order — the counter advances on the success and
the failure callback alike — and after exactly N callbacks emits the
completion notice. -/
theorem C10_delete_loop_total (files : List String) (ok : String → Bool)
    (hne : files.filter isVideoFile ≠ []) :
    (clearAllVideos files ok).attempts = files.filter isVideoFile ∧
    (clearAllVideos files ok).attempts.length
        = (files.filter isVideoFile).length ∧
    (clearAllVideos files ok).notice
        = "Deleted " ++ Nat.repr (files.filter isVideoFile).length
            ++ " videos" ∧
    (clearAllVideos files ok).noticeKind = "success" := by
  have hlen : ¬ (files.filter isVideoFile).length = 0 := by
    intro h0
    exact hne (List.length_eq_zero.mp h0)
  simp only [clearAllVideos, if_neg hlen, deleteNext_eq]
  refine ⟨by simp, by simp, by simp, by simp⟩

/-- Witness for C10 at a three-entry listing containing one non-video
file. -/
theorem C10_delete_loop_total_witness :
    (clearAllVideos ["a.mp4", "readme.txt", "b.webm"]
        (fun _ => true)).attempts
        = ["a.mp4", "readme.txt", "b.webm"].filter isVideoFile ∧
    (clearAllVideos ["a.mp4", "readme.txt", "b.webm"]
        (fun _ => true)).attempts.length
        = (["a.mp4", "readme.txt", "b.webm"].filter isVideoFile).length ∧
    (clearAllVideos ["a.mp4", "readme.txt", "b.webm"]
        (fun _ => true)).notice
        = "Deleted "
            ++ Nat.repr
              (["a.mp4", "readme.txt", "b.webm"].filter isVideoFile).length
            ++ " videos" ∧
    (clearAllVideos ["a.mp4", "readme.txt", "b.webm"]
        (fun _ => true)).noticeKind = "success" :=
  C10_delete_loop_total ["a.mp4", "readme.txt", "b.webm"] (fun _ => true)
    (by decide)

end DigiDisplay
